import Mathlib

/-!
Shallow embedding of the GTFS parsing and relational-join engine of the
transit application (`transit_app/utils/gtfs_parser.py`,
`transit_app/api/osu_data.py`, `transit_app/models/{route,stop,schedule}.py`),
together with theorems settling the specification claims about it.

Python strings are modelled as Lean `String`s, manipulated through
char-list helpers so that every operation is kernel-reducible; Python
dicts (which preserve insertion order) are modelled as association lists
with in-place update; Python `float` values are modelled as `Rat`
(no claim depends on floating-point rounding); exceptions are modelled
with `Option`/error components.
-/

namespace Transit

/-! ### Python string primitives -/

/-- Characters stripped by Python's `str.strip()` (ASCII whitespace). -/
def isPySpace (c : Char) : Bool :=
  c = ' ' || c = '\t' || c = '\n' || c = '\r' || c = '\x0b' || c = '\x0c'

/-- Remove leading and trailing Python whitespace from a char list. -/
def trimChars (cs : List Char) : List Char :=
  ((cs.dropWhile isPySpace).reverse.dropWhile isPySpace).reverse

/-- Python `str.strip()`. -/
def pyStrip (s : String) : String :=
  ⟨trimChars s.toList⟩

/-- ASCII lower-casing of one character (feed data is ASCII). -/
def asciiLower (c : Char) : Char :=
  if 'A' ≤ c && c ≤ 'Z' then Char.ofNat (c.toNat + 32) else c

/-- Python `str.lower()` (ASCII fragment). -/
def pyLower (s : String) : String :=
  ⟨s.toList.map asciiLower⟩

/-- `startsWithChars n h` holds when `n` is an initial segment of `h`. -/
def startsWithChars : List Char → List Char → Bool
  | [], _ => true
  | _ :: _, [] => false
  | a :: as, b :: bs => a = b && startsWithChars as bs

/-- Python's substring operator `n in h` on char lists. -/
def hasSubChars (n : List Char) : List Char → Bool
  | [] => n.isEmpty
  | b :: bs => startsWithChars n (b :: bs) || hasSubChars n bs

/-- Python `a in b` for strings (substring containment). -/
def pyInStr (n h : String) : Bool :=
  hasSubChars n.toList h.toList

/-- Split a char list on a separator character, Python `str.split(sep)`:
the result always has at least one (possibly empty) segment. -/
def splitOnChar (sep : Char) : List Char → List (List Char)
  | [] => [[]]
  | c :: rest =>
    let r := splitOnChar sep rest
    if c = sep then [] :: r
    else
      match r with
      | g :: gs => (c :: g) :: gs
      | [] => [[c]]

/-! ### Python `int()` on strings

`int(s)` strips whitespace, accepts one optional sign, then a nonempty
digit run in which single underscores may separate digits. -/

/-- A valid Python integer-literal digit run: nonempty, starts and ends
with a digit, single underscores only between digits. -/
def digitRun : List Char → Bool
  | [] => false
  | [c] => c.isDigit
  | c :: '_' :: rest => c.isDigit && digitRun rest
  | c :: rest => c.isDigit && digitRun rest

/-- Numeric value of a digit run (underscores skipped). -/
def digitsVal (cs : List Char) : Nat :=
  (cs.filter (fun c => c ≠ '_')).foldl (fun n c => 10 * n + (c.toNat - 48)) 0

/-- Python `int()` on a char list: `none` models a raised `ValueError`. -/
def pyIntChars (cs : List Char) : Option Int :=
  match trimChars cs with
  | '+' :: rest => if digitRun rest then some (Int.ofNat (digitsVal rest)) else none
  | '-' :: rest => if digitRun rest then some (-(Int.ofNat (digitsVal rest))) else none
  | rest => if digitRun rest then some (Int.ofNat (digitsVal rest)) else none

/-- Python `int()` on a string. -/
def pyInt (s : String) : Option Int :=
  pyIntChars s.toList

/-! ### Python `float()` on strings

Modelled over `Rat`: sign, optional decimal point, digit runs.  The
exponent, `inf`/`nan`, and underscore-in-fraction forms of Python
`float()` are not modelled; no claim exercises them. -/

/-- Python `float()` on a string: `none` models a raised `ValueError`. -/
def pyFloat (s : String) : Option Rat :=
  let t := trimChars s.toList
  let signed : Bool × List Char :=
    match t with
    | '+' :: r => (false, r)
    | '-' :: r => (true, r)
    | r => (false, r)
  let val : Option Rat :=
    match splitOnChar '.' signed.2 with
    | [ip] => if digitRun ip then some ((digitsVal ip : Rat)) else none
    | [ip, fp] =>
      if (ip.isEmpty || ip.all Char.isDigit) && (fp.isEmpty || fp.all Char.isDigit)
          && !(ip.isEmpty && fp.isEmpty) then
        some ((digitsVal ip : Rat) + (digitsVal fp : Rat) / ((10 : Rat) ^ fp.length))
      else none
    | _ => none
  val.map (fun v => if signed.1 then -v else v)

/-! ### `datetime.time` values -/

/-- A Python `datetime.time` value (hour, minute, second). -/
structure PyTime where
  hour : Nat
  minute : Nat
  second : Nat
deriving DecidableEq, Repr

/-- The `time(h, m, s)` constructor: `none` models a raised `ValueError`
when a component is out of range. -/
def mkTime (h m s : Int) : Option PyTime :=
  if 0 ≤ h ∧ h < 24 ∧ 0 ≤ m ∧ m < 60 ∧ 0 ≤ s ∧ s < 60 then
    some ⟨h.toNat, m.toNat, s.toNat⟩
  else none

/-- Python's ordering on `time` values (lexicographic). -/
def timeLE (a b : PyTime) : Prop :=
  a.hour < b.hour ∨
    (a.hour = b.hour ∧
      (a.minute < b.minute ∨ (a.minute = b.minute ∧ a.second ≤ b.second)))

instance : DecidableRel timeLE := fun a b => by
  unfold timeLE; exact inferInstance

instance : IsTotal PyTime timeLE := ⟨by
  intro a b; unfold timeLE; omega⟩

instance : IsTrans PyTime timeLE := ⟨by
  intro a b c; unfold timeLE; omega⟩

/-- Strict version of `timeLE`. -/
def timeLT (a b : PyTime) : Prop :=
  timeLE a b ∧ a ≠ b

/-- Python `sorted` on `time` values (any correct sort agrees with
Timsort once ties are only between equal elements). -/
def sortTimes (l : List PyTime) : List PyTime :=
  List.insertionSort timeLE l

/-! ### `GTFSParser.parse_gtfs_time` -/

/-- `GTFSParser.parse_gtfs_time`: parse a GTFS `H:MM:SS` / `HH:MM:SS`
string; hours ≥ 24 wrap modulo 24; missing third segment means 0 seconds;
any `ValueError` yields `none`. -/
def parse_gtfs_time (time_str : String) : Option PyTime :=
  if time_str = "" then none
  else
    match splitOnChar ':' time_str.toList with
    | p0 :: p1 :: rest =>
      match pyIntChars p0, pyIntChars p1,
          (match rest with | p2 :: _ => pyIntChars p2 | [] => some 0) with
      | some hours, some minutes, some seconds =>
        mkTime (if 24 ≤ hours then hours % 24 else hours) minutes seconds
      | _, _, _ => none
    | _ => none

/-- The malformed-input class of the (amended) error-handling claim:
empty input, a single colon-free segment, a non-numeric used component,
or an out-of-range minute or second. -/
def malformedTime (time_str : String) : Bool :=
  time_str = "" ||
    match splitOnChar ':' time_str.toList with
    | p0 :: p1 :: rest =>
      (pyIntChars p0).isNone ||
        (match pyIntChars p1 with
          | none => true
          | some m => decide (m < 0) || decide (60 ≤ m)) ||
        (match (match rest with | p2 :: _ => pyIntChars p2 | [] => some 0) with
          | none => true
          | some s => decide (s < 0) || decide (60 ≤ s))
    | _ => true

/-! ### Rows and insertion-ordered dicts

A CSV `DictReader` row is an association list of header name to cell
text; a Python dict is an insertion-ordered association list in which
assigning to an existing key updates in place and a new key appends. -/

/-- One CSV row as produced by `csv.DictReader`. -/
def Row : Type := List (String × String)

/-- Python `row.get(key, default)` for string values. -/
def rowGet (r : Row) (k d : String) : String :=
  ((r.find? (fun p => p.1 = k)).map Prod.snd).getD d

/-- Python dict assignment `d[k] = v`. -/
def dictInsert {α : Type} (d : List (String × α)) (k : String) (v : α) :
    List (String × α) :=
  if d.any (fun p => p.1 = k) then
    d.map (fun p => if p.1 = k then (p.1, v) else p)
  else d ++ [(k, v)]

/-- Python dict lookup `d.get(k)` / `d[k]`. -/
def dictFind {α : Type} (d : List (String × α)) (k : String) : Option α :=
  (d.find? (fun p => p.1 = k)).map Prod.snd

/-! ### Table records (`GTFSParser._load_*`) -/

/-- A row of the in-memory `routes` table. -/
structure RouteRec where
  route_id : String
  route_short_name : String
  route_long_name : String
  route_type : String
  route_color : String
  route_text_color : String
  route_desc : String
deriving DecidableEq, Repr

/-- A row of the in-memory `stops` table; coordinates are `none` when
either fails to parse as a float. -/
structure StopRec where
  stop_id : String
  stop_name : String
  stop_lat : Option Rat
  stop_lon : Option Rat
  stop_desc : String
  zone_id : String
deriving DecidableEq, Repr

/-- A row of the in-memory `trips` table. -/
structure TripRec where
  trip_id : String
  route_id : String
  service_id : String
  trip_headsign : String
  direction_id : String
  shape_id : String
deriving DecidableEq, Repr

/-- A row of the in-memory `stop_times` list. -/
structure StopTimeRec where
  trip_id : String
  arrival_time : String
  departure_time : String
  stop_id : String
  stop_sequence : Int
deriving DecidableEq, Repr

/-- A row of the in-memory `calendar` table. -/
structure CalendarRec where
  service_id : String
  monday : Bool
  tuesday : Bool
  wednesday : Bool
  thursday : Bool
  friday : Bool
  saturday : Bool
  sunday : Bool
  start_date : String
  end_date : String
deriving DecidableEq, Repr

/-- `GTFSParser._load_routes` over the rows of `routes.txt`. -/
def load_routes (rows : List Row) : List (String × RouteRec) :=
  rows.foldl
    (fun acc row =>
      let route_id := pyStrip (rowGet row "route_id" "")
      if route_id ≠ "" then
        dictInsert acc route_id
          { route_id := route_id
            route_short_name := pyStrip (rowGet row "route_short_name" "")
            route_long_name := pyStrip (rowGet row "route_long_name" "")
            route_type := rowGet row "route_type" "3"
            route_color := pyStrip (rowGet row "route_color" "")
            route_text_color := pyStrip (rowGet row "route_text_color" "")
            route_desc := pyStrip (rowGet row "route_desc" "") }
      else acc)
    []

/-- `GTFSParser._load_stops` over the rows of `stops.txt`: a failed
`float()` on either coordinate makes both coordinates `None`. -/
def load_stops (rows : List Row) : List (String × StopRec) :=
  rows.foldl
    (fun acc row =>
      let stop_id := pyStrip (rowGet row "stop_id" "")
      if stop_id ≠ "" then
        let latlon :=
          match pyFloat (rowGet row "stop_lat" "0"), pyFloat (rowGet row "stop_lon" "0") with
          | some la, some lo => (some la, some lo)
          | _, _ => ((none : Option Rat), (none : Option Rat))
        dictInsert acc stop_id
          { stop_id := stop_id
            stop_name := pyStrip (rowGet row "stop_name" "")
            stop_lat := latlon.1
            stop_lon := latlon.2
            stop_desc := pyStrip (rowGet row "stop_desc" "")
            zone_id := pyStrip (rowGet row "zone_id" "") }
      else acc)
    []

/-- `GTFSParser._load_trips` over the rows of `trips.txt`. -/
def load_trips (rows : List Row) : List (String × TripRec) :=
  rows.foldl
    (fun acc row =>
      let trip_id := pyStrip (rowGet row "trip_id" "")
      if trip_id ≠ "" then
        dictInsert acc trip_id
          { trip_id := trip_id
            route_id := pyStrip (rowGet row "route_id" "")
            service_id := pyStrip (rowGet row "service_id" "")
            trip_headsign := pyStrip (rowGet row "trip_headsign" "")
            direction_id := pyStrip (rowGet row "direction_id" "")
            shape_id := pyStrip (rowGet row "shape_id" "") }
      else acc)
    []

/-- `GTFSParser._load_stop_times` over the rows of `stop_times.txt`.
The source calls `int(row.get('stop_sequence', 0))` with no exception
handler, so a row whose `stop_sequence` does not parse raises
`ValueError`: the first component is the list of rows appended before
the raise, the second is the raised error (`none` when the loop
completes). -/
def load_stop_times : List Row → List StopTimeRec × Option String
  | [] => ([], none)
  | row :: rest =>
    match pyInt (rowGet row "stop_sequence" "0") with
    | none => ([], some "ValueError: invalid literal for int() with base 10")
    | some seq =>
      let r := load_stop_times rest
      ({ trip_id := pyStrip (rowGet row "trip_id" "")
         arrival_time := pyStrip (rowGet row "arrival_time" "")
         departure_time := pyStrip (rowGet row "departure_time" "")
         stop_id := pyStrip (rowGet row "stop_id" "")
         stop_sequence := seq } :: r.1, r.2)

/-- `GTFSParser._load_calendar` over the rows of `calendar.txt`. -/
def load_calendar (rows : List Row) : List (String × CalendarRec) :=
  rows.foldl
    (fun acc row =>
      let service_id := pyStrip (rowGet row "service_id" "")
      if service_id ≠ "" then
        dictInsert acc service_id
          { service_id := service_id
            monday := rowGet row "monday" "0" = "1"
            tuesday := rowGet row "tuesday" "0" = "1"
            wednesday := rowGet row "wednesday" "0" = "1"
            thursday := rowGet row "thursday" "0" = "1"
            friday := rowGet row "friday" "0" = "1"
            saturday := rowGet row "saturday" "0" = "1"
            sunday := rowGet row "sunday" "0" = "1"
            start_date := pyStrip (rowGet row "start_date" "")
            end_date := pyStrip (rowGet row "end_date" "") }
      else acc)
    []

/-! ### Feed store (`GTFSParser` state and join helpers) -/

/-- The loaded tables of a `GTFSParser`. -/
structure GTFSParser where
  routes : List (String × RouteRec)
  stops : List (String × StopRec)
  trips : List (String × TripRec)
  stop_times : List StopTimeRec
  calendar : List (String × CalendarRec)
deriving DecidableEq, Repr

/-- `GTFSParser.load_gtfs_data` over per-table row lists (`none` models
a missing table file, which loads as empty).  A `ValueError` raised
while loading `stop_times` propagates: earlier tables stay loaded,
`calendar` is never reached, and the error is returned. -/
def load_gtfs_data (routesRows stopsRows tripsRows stopTimesRows calendarRows :
    Option (List Row)) : GTFSParser × Option String :=
  let r := (routesRows.map load_routes).getD []
  let s := (stopsRows.map load_stops).getD []
  let t := (tripsRows.map load_trips).getD []
  let st := (stopTimesRows.map load_stop_times).getD ([], none)
  match st.2 with
  | some e => (⟨r, s, t, st.1, []⟩, some e)
  | none => (⟨r, s, t, st.1, (calendarRows.map load_calendar).getD []⟩, none)

/-- Ordering of stop-time rows by `stop_sequence`, used by the
`trip_stop_times.sort(...)` call in `get_route_stops`. -/
def seqLE (a b : StopTimeRec) : Prop :=
  a.stop_sequence ≤ b.stop_sequence

instance : DecidableRel seqLE := fun a b => by
  unfold seqLE; exact inferInstance

instance : IsTotal StopTimeRec seqLE := ⟨by
  intro a b; unfold seqLE; omega⟩

instance : IsTrans StopTimeRec seqLE := ⟨by
  intro a b c; unfold seqLE; omega⟩

/-- The augmented stop dictionary built inside `get_route_stops`
(a copy of the stop record plus sequence and raw times). -/
structure RouteStopInfo where
  stop : StopRec
  stop_sequence : Int
  arrival_time : String
  departure_time : String
deriving DecidableEq, Repr

/-- `GTFSParser.get_route_stops`: stops of the route's first trip in
`stop_sequence` order, deduplicated by `stop_id`, silently skipping
stop ids absent from the stops table; empty when the route has no
trips. -/
def get_route_stops (p : GTFSParser) (route_id : String) : List RouteStopInfo :=
  let route_trips := (p.trips.map Prod.snd).filter (fun t => t.route_id = route_id)
  match route_trips with
  | [] => []
  | first :: _ =>
    let trip_stop_times :=
      List.insertionSort seqLE (p.stop_times.filter (fun st => st.trip_id = first.trip_id))
    (trip_stop_times.foldl
      (fun acc st =>
        if (dictFind p.stops st.stop_id).isSome
            ∧ ¬ acc.any (fun info => info.stop.stop_id = st.stop_id) then
          match dictFind p.stops st.stop_id with
          | some rec =>
            acc ++ [{ stop := rec
                      stop_sequence := st.stop_sequence
                      arrival_time := st.arrival_time
                      departure_time := st.departure_time }]
          | none => acc
        else acc)
      [])

/-- `GTFSParser.get_stop_times_for_route`: all stop-time rows whose trip
belongs to the route, optionally filtered to one (truthy) stop id. -/
def get_stop_times_for_route (p : GTFSParser) (route_id : String)
    (stop_id : Option String) : List StopTimeRec :=
  let route_trips :=
    ((p.trips.map Prod.snd).filter (fun t => t.route_id = route_id)).map (·.trip_id)
  let sts := p.stop_times.filter (fun st => st.trip_id ∈ route_trips)
  match stop_id with
  | none => sts
  | some sid => if sid = "" then sts else sts.filter (fun st => st.stop_id = sid)

/-! ### Public view models (`models/stop.py`, `models/route.py`,
`models/schedule.py`) -/

/-- The `Stop` view model. -/
structure Stop where
  stop_id : String
  name : String
  latitude : Option Rat
  longitude : Option Rat
  address : String
deriving DecidableEq, Repr

/-- The `Route` view model; `duration` is a `timedelta` in seconds,
`cost` a float. -/
structure Route where
  route_id : String
  origin : String
  destination : String
  stops : List Stop
  duration : Int
  cost : Rat
  transfers : Int
deriving DecidableEq, Repr

/-- The `Schedule` view model. -/
structure Schedule where
  route : Option Route
  stop : Option Stop
  departure_times : List PyTime
  arrival_times : List PyTime
  frequency : Option Int
deriving DecidableEq, Repr

/-- `Schedule.add_departure`: append unless already present, then sort. -/
def Schedule.add_departure (s : Schedule) (departure_time : PyTime) : Schedule :=
  if departure_time ∈ s.departure_times then s
  else { s with departure_times := sortTimes (s.departure_times ++ [departure_time]) }

/-- `Schedule.add_arrival`: append unless already present, then sort. -/
def Schedule.add_arrival (s : Schedule) (arrival_time : PyTime) : Schedule :=
  if arrival_time ∈ s.arrival_times then s
  else { s with arrival_times := sortTimes (s.arrival_times ++ [arrival_time]) }

/-- Decimal digit character. -/
def digitChar (n : Nat) : Char :=
  Char.ofNat (48 + n)

/-- `t.strftime("%H:%M")`: zero-padded 24-hour `HH:MM` text. -/
def fmtHM (t : PyTime) : String :=
  ⟨[digitChar (t.hour / 10), digitChar (t.hour % 10), ':',
    digitChar (t.minute / 10), digitChar (t.minute % 10)]⟩

/-- The dictionary produced by `Schedule.to_dict`. -/
structure ScheduleDict where
  route : Option String
  stop : Option String
  departure_times : List String
  arrival_times : List String
  frequency : Option Int
deriving DecidableEq, Repr

/-- `Schedule.to_dict`: ids of the route and stop, times serialized as
`HH:MM` strings. -/
def Schedule.to_dict (s : Schedule) : ScheduleDict :=
  { route := s.route.map (·.route_id)
    stop := s.stop.map (·.stop_id)
    departure_times := s.departure_times.map fmtHM
    arrival_times := s.arrival_times.map fmtHM
    frequency := s.frequency }

/-! ### Snapshot cache (`api/osu_data.py`) -/

/-- The module-level cache `_osu_stops` / `_osu_routes` /
`_osu_schedules` of `osu_data.py`. -/
structure OsuState where
  osu_stops : List Stop
  osu_routes : List Route
  osu_schedules : List (String × List Schedule)
deriving DecidableEq, Repr

/-- The empty initial cache state. -/
def initState : OsuState :=
  ⟨[], [], []⟩

/-- The `stop_times_dict` grouping of `load_osu_data`: stop-time rows
bucketed by `stop_id`, buckets in first-seen order, rows in list
order. -/
def groupByStopId (route_stop_times : List StopTimeRec) :
    List (String × List StopTimeRec) :=
  route_stop_times.foldl
    (fun d st =>
      if (dictFind d st.stop_id).isSome then
        d.map (fun g => if g.1 = st.stop_id then (g.1, g.2 ++ [st]) else g)
      else d ++ [(st.stop_id, [st])])
    []

/-- The `sorted(arrival_times)` set of one stop's group: the group's
non-empty raw arrival strings parsed (unparseable entries dropped),
deduplicated through a set, sorted ascending. -/
def parsedArrivalTimes (rows : List StopTimeRec) : List PyTime :=
  sortTimes (rows.filterMap
    (fun st => if st.arrival_time ≠ "" then parse_gtfs_time st.arrival_time
               else none)).dedup

/-- The `sorted(departure_times)` set of one stop's group. -/
def parsedDepartureTimes (rows : List StopTimeRec) : List PyTime :=
  sortTimes (rows.filterMap
    (fun st => if st.departure_time ≠ "" then parse_gtfs_time st.departure_time
               else none)).dedup

/-- The `Schedule` object after the two `add_arrival` / `add_departure`
loops of `load_osu_data` for one stop's group. -/
def assembledSchedule (route : Route) (stp : Stop) (rows : List StopTimeRec) :
    Schedule :=
  (parsedDepartureTimes rows).foldl Schedule.add_departure
    ((parsedArrivalTimes rows).foldl Schedule.add_arrival
      ⟨some route, some stp, [], [], none⟩)

/-- The schedule assembled for one resolved stop of a route; `none`
when no time of either kind survives parsing. -/
def mkStopSchedule (route : Route) (stp : Stop) (rows : List StopTimeRec) :
    Option Schedule :=
  if (assembledSchedule route stp rows).departure_times.isEmpty
      ∧ (assembledSchedule route stp rows).arrival_times.isEmpty then none
  else some (assembledSchedule route stp rows)

/-- The schedules built for one route (continued): group the route's
stop-time rows by stop id in first-seen order, skip groups whose stop id
does not resolve, and keep the non-empty schedules. -/
def buildRouteSchedules (p : GTFSParser) (stop_dict : List (String × Stop))
    (route : Route) : List Schedule :=
  (groupByStopId (get_stop_times_for_route p route.route_id none)).filterMap
    (fun g =>
      match dictFind stop_dict g.1 with
      | none => none
      | some stp => mkStopSchedule route stp g.2)

/-- The stop view list built by `load_osu_data` (one `Stop` per
`StopRec`, in table order, name and coordinates copied). -/
def osuStops (p : GTFSParser) : List Stop :=
  p.stops.map (fun e =>
    Stop.mk e.1 e.2.stop_name e.2.stop_lat e.2.stop_lon e.2.stop_desc)

/-- The `stop_dict = {stop.stop_id: stop for stop in _osu_stops}`
dictionary of `load_osu_data`. -/
def osuStopDict (p : GTFSParser) : List (String × Stop) :=
  (osuStops p).foldl (fun d s => dictInsert d s.stop_id s) []

/-- The `route_stops` list of the route loop in `load_osu_data`: the
route's ordered stop infos resolved against `stop_dict` (ids absent
from the dictionary drop out). -/
def routeStopViews (p : GTFSParser) (stop_dict : List (String × Stop))
    (rid : String) : List Stop :=
  (get_route_stops p rid).filterMap (fun info => dictFind stop_dict info.stop.stop_id)

/-- The `Route` view before the short-name origin override. -/
def baseRoute (e : String × RouteRec) (route_stops : List Stop) : Route :=
  { route_id := e.1
    origin := (match route_stops with | s :: _ => s.name | [] => "")
    destination := ((route_stops.getLast?).map (·.name)).getD ""
    stops := route_stops
    duration := 60 * (route_stops.length * 2)
    cost := 0
    transfers := 0 }

/-- `buildRoute` (continued): no route when no stop resolves, otherwise
the base route, its origin overridden by `"{short_name} Route"` when the
short name is non-empty. -/
def buildRoute (p : GTFSParser) (stop_dict : List (String × Stop))
    (e : String × RouteRec) : Option Route :=
  if (routeStopViews p stop_dict e.1).isEmpty then none
  else
    some (if e.2.route_short_name ≠ "" then
            { baseRoute e (routeStopViews p stop_dict e.1) with
                origin := e.2.route_short_name ++ " Route" }
          else baseRoute e (routeStopViews p stop_dict e.1))

/-- The rebuild branch of `load_osu_data`: build the full stop, route
and schedule snapshot from the parser's tables. -/
def buildOsuData (p : GTFSParser) : OsuState :=
  let stop_dict := osuStopDict p
  let osu_routes := p.routes.filterMap (buildRoute p stop_dict)
  let osu_schedules :=
    osu_routes.foldl
      (fun d r => dictInsert d r.route_id (buildRouteSchedules p stop_dict r))
      []
  ⟨osuStops p, osu_routes, osu_schedules⟩

/-- `load_osu_data(force_reload)`: a no-op when not forced and both the
stop and route collections are already non-empty; otherwise rebuilds
the whole snapshot from the parser. -/
def load_osu_data (p : GTFSParser) (st : OsuState) (force_reload : Bool) : OsuState :=
  if ¬ force_reload ∧ st.osu_stops ≠ [] ∧ st.osu_routes ≠ [] then st
  else buildOsuData p

/-- `get_osu_stops()`: lazy load when empty, then the stop list. -/
def get_osu_stops (p : GTFSParser) (st : OsuState) : List Stop × OsuState :=
  let st := if st.osu_stops.isEmpty then load_osu_data p st false else st
  (st.osu_stops, st)

/-- `get_osu_routes()`: lazy load when empty, then the route list. -/
def get_osu_routes (p : GTFSParser) (st : OsuState) : List Route × OsuState :=
  let st := if st.osu_routes.isEmpty then load_osu_data p st false else st
  (st.osu_routes, st)

/-- The per-stop match test of `search_osu_stops`: case-insensitive
substring match of the query against name, address, or stop id. -/
def stopMatches (query : String) (stop : Stop) : Bool :=
  pyInStr (pyLower query) (pyLower stop.name)
    || pyInStr (pyLower query) (pyLower stop.address)
    || pyInStr (pyLower query) (pyLower stop.stop_id)

/-- `search_osu_stops(query)` (continued): the dispatch between the
empty-query short-circuit, the substring matches, and the first-five
fallback. -/
def search_osu_stops (p : GTFSParser) (st : OsuState) (query : String) :
    List Stop × OsuState :=
  let r := get_osu_stops p st
  if query = "" then (r.1.take 10, r.2)
  else
    let results := r.1.filter (stopMatches query)
    if results.isEmpty then (r.1.take 5, r.2) else (results, r.2)

/-- `get_osu_schedules(route_id, stop_id)`: lazy load when the schedule
map is empty, look up by route id (absent means empty), optionally
filter to one (truthy) stop id. -/
def get_osu_schedules (p : GTFSParser) (st : OsuState) (route_id : String)
    (stop_id : Option String) : List Schedule × OsuState :=
  let st := if st.osu_schedules.isEmpty then load_osu_data p st false else st
  let route_schedules := (dictFind st.osu_schedules route_id).getD []
  match stop_id with
  | none => (route_schedules, st)
  | some sid =>
    if sid = "" then (route_schedules, st)
    else
      (route_schedules.filter
        (fun s => match s.stop with | some stp => stp.stop_id = sid | none => false), st)

/-! ### Concrete fixtures -/

/-- The end-to-end scenario feed: one route `R1` (short name `"A"`),
one trip `T1` on `R1`, stops `S1 "Union"` and `S2 "Library"`, and two
stop-time rows for `T1`. -/
def e2eParser : GTFSParser :=
  (load_gtfs_data
    (some [[("route_id", "R1"), ("route_short_name", "A")]])
    (some [[("stop_id", "S1"), ("stop_name", "Union")],
           [("stop_id", "S2"), ("stop_name", "Library")]])
    (some [[("trip_id", "T1"), ("route_id", "R1")]])
    (some [[("trip_id", "T1"), ("stop_id", "S1"), ("stop_sequence", "1"),
            ("departure_time", "08:00:00")],
           [("trip_id", "T1"), ("stop_id", "S2"), ("stop_sequence", "2"),
            ("departure_time", "08:10:00")]])
    none).1

/-- The `Stop` view of `S1` in the end-to-end feed. -/
def stopS1 : Stop :=
  ⟨"S1", "Union", some 0, some 0, ""⟩

/-- The `Stop` view of `S2` in the end-to-end feed. -/
def stopS2 : Stop :=
  ⟨"S2", "Library", some 0, some 0, ""⟩

/-- A feed whose single stop `S` receives departure strings
`"08:00:00"`, `"08:00:00"`, `"07:30:00"` across the trips of route
`R` (the dedup-and-sort scenario). -/
def dedupParser : GTFSParser :=
  (load_gtfs_data
    (some [[("route_id", "R")]])
    (some [[("stop_id", "S"), ("stop_name", "Main")]])
    (some [[("trip_id", "T1"), ("route_id", "R")],
           [("trip_id", "T2"), ("route_id", "R")],
           [("trip_id", "T3"), ("route_id", "R")]])
    (some [[("trip_id", "T1"), ("stop_id", "S"), ("stop_sequence", "1"),
            ("departure_time", "08:00:00")],
           [("trip_id", "T2"), ("stop_id", "S"), ("stop_sequence", "1"),
            ("departure_time", "08:00:00")],
           [("trip_id", "T3"), ("stop_id", "S"), ("stop_sequence", "1"),
            ("departure_time", "07:30:00")]])
    none).1

/-- A feed whose stop-times reference one stop id (`SX`) absent from the
stops table and one present (`S1`), for the referential-tolerance
scenario. -/
def refParser : GTFSParser :=
  (load_gtfs_data
    (some [[("route_id", "R1")]])
    (some [[("stop_id", "S1"), ("stop_name", "Known")]])
    (some [[("trip_id", "T1"), ("route_id", "R1")]])
    (some [[("trip_id", "T1"), ("stop_id", "SX"), ("stop_sequence", "1"),
            ("departure_time", "07:00:00")],
           [("trip_id", "T1"), ("stop_id", "S1"), ("stop_sequence", "2"),
            ("departure_time", "09:00:00")]])
    none).1

/-- The `Stop` view of the single stop of the dedup scenario. -/
def dedupStop : Stop :=
  ⟨"S", "Main", some 0, some 0, ""⟩

/-- The `Route` view of the single route of the dedup scenario. -/
def dedupRoute : Route :=
  ⟨"R", "Main", "Main", [dedupStop], 120, 0, 0⟩

/-- The single schedule the builder produces for the dedup scenario. -/
def dedupSched : Schedule :=
  ⟨some dedupRoute, some dedupStop, [⟨7, 30, 0⟩, ⟨8, 0, 0⟩], [], none⟩

/-- The `Stop` view of the known stop of the referential scenario. -/
def refStop : Stop :=
  ⟨"S1", "Known", some 0, some 0, ""⟩

/-- The `Route` view of the single route of the referential scenario. -/
def refRoute : Route :=
  ⟨"R1", "Known", "Known", [refStop], 120, 0, 0⟩

/-- The single schedule the builder produces for the referential
scenario (only the known stop survives). -/
def refSched : Schedule :=
  ⟨some refRoute, some refStop, [⟨9, 0, 0⟩], [], none⟩

/-- A stop_times table whose second row has a non-integer
`stop_sequence`. -/
def badSeqRows : List Row :=
  [[("trip_id", "T1"), ("stop_sequence", "1")],
   [("trip_id", "T2"), ("stop_sequence", "abc")],
   [("trip_id", "T3"), ("stop_sequence", "3")]]

/-- A parser with no tables loaded. -/
def emptyParser : GTFSParser :=
  ⟨[], [], [], [], []⟩

/-- A numbered placeholder stop. -/
def numberedStop (n : Nat) : Stop :=
  ⟨String.mk [digitChar (n / 10), digitChar (n % 10)], "Stop", none, none, ""⟩

/-- A loaded cache state holding eleven distinct stops (and no routes or
schedules). -/
def elevenStopState : OsuState :=
  ⟨(List.range 11).map numberedStop, [], []⟩

/-! ## Helper lemmas -/

theorem mem_dictInsert {α : Type} {d : List (String × α)} {k : String} {v : α}
    {x : String × α} (hx : x ∈ dictInsert d k v) : x ∈ d ∨ x = (k, v) := by
  unfold dictInsert at hx
  by_cases hc : d.any (fun p => p.1 = k)
  · rw [if_pos hc] at hx
    rcases List.mem_map.1 hx with ⟨y, hy, hxy⟩
    by_cases hyk : y.1 = k
    · right
      rw [if_pos hyk] at hxy
      rw [← hxy, hyk]
    · left
      rw [if_neg hyk] at hxy
      rw [← hxy]
      exact hy
  · rw [if_neg hc] at hx
    rcases List.mem_append.1 hx with h | h
    · exact Or.inl h
    · right
      simpa using h

theorem foldl_dictInsert_prop {α β : Type} (P : String × α → Prop)
    (f : β → String) (g : β → α) :
    ∀ (l : List β) (d : List (String × α)),
      (∀ x ∈ d, P x) → (∀ b ∈ l, P (f b, g b)) →
      ∀ x ∈ l.foldl (fun d b => dictInsert d (f b) (g b)) d, P x := by
  intro l
  induction l with
  | nil => exact fun d hd _ x hx => hd x hx
  | cons b bs ih =>
    intro d hd hl x hx
    refine ih (dictInsert d (f b) (g b)) ?_
      (fun c hc => hl c (List.mem_cons_of_mem _ hc)) x hx
    intro y hy
    rcases mem_dictInsert hy with h | h
    · exact hd y h
    · rw [h]
      exact hl b (List.mem_cons_self _ _)

theorem dictFind_mem {α : Type} {d : List (String × α)} {k : String} {v : α}
    (h : dictFind d k = some v) : (k, v) ∈ d := by
  unfold dictFind at h
  rcases hf : d.find? (fun p => p.1 = k) with _ | q
  · rw [hf] at h
    cases h
  · rw [hf] at h
    have hq := List.find?_some hf
    have hmem := List.mem_of_find?_eq_some hf
    simp at h hq
    have : q = (k, v) := by
      rcases q with ⟨q1, q2⟩
      simp_all
    rw [← this]
    exact hmem

theorem pairwise_timeLT_of_sorted_nodup {l : List PyTime}
    (hs : l.Pairwise timeLE) (hn : l.Nodup) : l.Pairwise timeLT :=
  (hs.and hn).imp (fun h => ⟨h.1, h.2⟩)

theorem sortTimes_pairwise {l : List PyTime} (hn : l.Nodup) :
    (sortTimes l).Pairwise timeLT :=
  pairwise_timeLT_of_sorted_nodup (List.sorted_insertionSort timeLE l)
    (((List.perm_insertionSort timeLE l).symm).nodup hn)

theorem add_departure_arrival_times (s : Schedule) (t : PyTime) :
    (s.add_departure t).arrival_times = s.arrival_times := by
  unfold Schedule.add_departure
  split <;> rfl

theorem add_departure_stop (s : Schedule) (t : PyTime) :
    (s.add_departure t).stop = s.stop := by
  unfold Schedule.add_departure
  split <;> rfl

theorem add_arrival_departure_times (s : Schedule) (t : PyTime) :
    (s.add_arrival t).departure_times = s.departure_times := by
  unfold Schedule.add_arrival
  split <;> rfl

theorem add_arrival_stop (s : Schedule) (t : PyTime) :
    (s.add_arrival t).stop = s.stop := by
  unfold Schedule.add_arrival
  split <;> rfl

theorem add_departure_pairwise (s : Schedule) (t : PyTime)
    (h : s.departure_times.Pairwise timeLT) :
    (s.add_departure t).departure_times.Pairwise timeLT := by
  unfold Schedule.add_departure
  split
  · exact h
  · rename_i hmem
    apply sortTimes_pairwise
    rw [List.nodup_append]
    refine ⟨h.imp (fun hab => hab.2), List.nodup_singleton t, ?_⟩
    intro a ha hb
    simp at hb
    subst hb
    exact hmem ha

theorem add_arrival_pairwise (s : Schedule) (t : PyTime)
    (h : s.arrival_times.Pairwise timeLT) :
    (s.add_arrival t).arrival_times.Pairwise timeLT := by
  unfold Schedule.add_arrival
  split
  · exact h
  · rename_i hmem
    apply sortTimes_pairwise
    rw [List.nodup_append]
    refine ⟨h.imp (fun hab => hab.2), List.nodup_singleton t, ?_⟩
    intro a ha hb
    simp at hb
    subst hb
    exact hmem ha

theorem foldl_add_departure_pairwise (l : List PyTime) (s : Schedule)
    (h : s.departure_times.Pairwise timeLT) :
    (l.foldl Schedule.add_departure s).departure_times.Pairwise timeLT := by
  induction l generalizing s with
  | nil => exact h
  | cons t ts ih => exact ih _ (add_departure_pairwise s t h)

theorem foldl_add_arrival_pairwise (l : List PyTime) (s : Schedule)
    (h : s.arrival_times.Pairwise timeLT) :
    (l.foldl Schedule.add_arrival s).arrival_times.Pairwise timeLT := by
  induction l generalizing s with
  | nil => exact h
  | cons t ts ih => exact ih _ (add_arrival_pairwise s t h)

theorem foldl_add_departure_arrival_times (l : List PyTime) (s : Schedule) :
    (l.foldl Schedule.add_departure s).arrival_times = s.arrival_times := by
  induction l generalizing s with
  | nil => rfl
  | cons t ts ih => rw [List.foldl_cons, ih, add_departure_arrival_times]

theorem foldl_add_arrival_departure_times (l : List PyTime) (s : Schedule) :
    (l.foldl Schedule.add_arrival s).departure_times = s.departure_times := by
  induction l generalizing s with
  | nil => rfl
  | cons t ts ih => rw [List.foldl_cons, ih, add_arrival_departure_times]

theorem foldl_add_departure_stop (l : List PyTime) (s : Schedule) :
    (l.foldl Schedule.add_departure s).stop = s.stop := by
  induction l generalizing s with
  | nil => rfl
  | cons t ts ih => rw [List.foldl_cons, ih, add_departure_stop]

theorem foldl_add_arrival_stop (l : List PyTime) (s : Schedule) :
    (l.foldl Schedule.add_arrival s).stop = s.stop := by
  induction l generalizing s with
  | nil => rfl
  | cons t ts ih => rw [List.foldl_cons, ih, add_arrival_stop]

theorem mkStopSchedule_some {route : Route} {stp : Stop}
    {rows : List StopTimeRec} {s : Schedule}
    (h : mkStopSchedule route stp rows = some s) :
    s.stop = some stp ∧ s.departure_times.Pairwise timeLT
      ∧ s.arrival_times.Pairwise timeLT := by
  unfold mkStopSchedule at h
  split at h
  · cases h
  · injection h with h
    subst h
    unfold assembledSchedule
    refine ⟨?_, ?_, ?_⟩
    · rw [foldl_add_departure_stop, foldl_add_arrival_stop]
    · apply foldl_add_departure_pairwise
      rw [foldl_add_arrival_departure_times]
      exact List.Pairwise.nil
    · rw [foldl_add_departure_arrival_times]
      exact foldl_add_arrival_pairwise _ _ List.Pairwise.nil

theorem mem_buildRouteSchedules {p : GTFSParser} {sd : List (String × Stop)}
    {r : Route} {s : Schedule} (h : s ∈ buildRouteSchedules p sd r) :
    (∃ k stp, dictFind sd k = some stp ∧ s.stop = some stp) ∧
      s.departure_times.Pairwise timeLT ∧ s.arrival_times.Pairwise timeLT := by
  unfold buildRouteSchedules at h
  rcases List.mem_filterMap.1 h with ⟨g, hg, hfg⟩
  rcases hd : dictFind sd g.1 with _ | stp
  · rw [hd] at hfg
    cases hfg
  · rw [hd] at hfg
    obtain ⟨h1, h2, h3⟩ := mkStopSchedule_some hfg
    exact ⟨⟨g.1, stp, hd, h1⟩, h2, h3⟩

theorem buildOsuData_schedules_spec {p : GTFSParser} {x : String × List Schedule}
    (hx : x ∈ (buildOsuData p).osu_schedules) :
    ∃ r, x.2 = buildRouteSchedules p (osuStopDict p) r :=
  foldl_dictInsert_prop (fun e => ∃ r, e.2 = buildRouteSchedules p (osuStopDict p) r)
    Route.route_id (fun r => buildRouteSchedules p (osuStopDict p) r)
    (p.routes.filterMap (buildRoute p (osuStopDict p))) []
    (fun _ hy => absurd hy (List.not_mem_nil _))
    (fun b _ => ⟨b, rfl⟩) x hx

theorem osuStopDict_spec {p : GTFSParser} {x : String × Stop}
    (hx : x ∈ osuStopDict p) :
    x.2 ∈ osuStops p ∧ x.1 = x.2.stop_id :=
  foldl_dictInsert_prop (fun e => e.2 ∈ osuStops p ∧ e.1 = e.2.stop_id)
    Stop.stop_id id (osuStops p) []
    (fun _ hy => absurd hy (List.not_mem_nil _))
    (fun _b hb => ⟨hb, rfl⟩) x hx

theorem osuStops_stop_id_mem {p : GTFSParser} {stp : Stop}
    (h : stp ∈ osuStops p) : stp.stop_id ∈ p.stops.map Prod.fst := by
  rcases List.mem_map.1 h with ⟨e, he, hdef⟩
  rw [← hdef]
  exact List.mem_map.2 ⟨e, he, rfl⟩

theorem buildRoute_spec {p : GTFSParser} {sd : List (String × Stop)}
    {e : String × RouteRec} {r : Route} (h : buildRoute p sd e = some r) :
    r.route_id = e.1 ∧ r.stops = routeStopViews p sd e.1 ∧ r.stops ≠ [] := by
  unfold buildRoute at h
  split at h
  · cases h
  · rename_i hne
    rw [List.isEmpty_iff] at hne
    injection h with h
    subst h
    by_cases hsn : e.2.route_short_name ≠ "" <;> simp [hsn, baseRoute] <;> exact hne

/-! ## Claim theorems -/

/-- C1: the claim says a stop_times row with an unparsable
`stop_sequence` is excluded and the load of the remaining rows completes
without raising.  The source calls `int(...)` unprotected, so the load
raises instead: on a table whose second row carries
`stop_sequence = "abc"`, loading stops at that row (only the first row
is retained, the third is never loaded) and a `ValueError` propagates
out of `load_gtfs_data`. -/
theorem claim_C1_stop_sequence_raises :
    (load_stop_times badSeqRows).2.isSome = true ∧
      (load_stop_times badSeqRows).1.map StopTimeRec.trip_id = ["T1"] ∧
      (load_gtfs_data none none none (some badSeqRows) none).2.isSome = true := by
  decide

/-- C2 counterexample: `"1:2:3:4"` has four colon-separated segments —
a wrong segment count — yet `parse_gtfs_time` returns a value rather
than `none`, refuting the claim as stated. -/
theorem claim_C2_counterexample :
    (splitOnChar ':' ("1:2:3:4").toList).length = 4 ∧
      parse_gtfs_time "1:2:3:4" = some ⟨1, 2, 3⟩ := by
  decide

/-- C2 (amended): for every input that is empty, consists of a single
colon-free segment, or whose used components (first, second, and third
when present) include a non-numeric one or an out-of-range minute or
second, the parser returns `none` and never raises; inputs with two or
more segments are otherwise parsed from their first three segments. -/
theorem claim_C2_amended (time_str : String) (h : malformedTime time_str = true) :
    parse_gtfs_time time_str = none := by
  unfold malformedTime at h
  unfold parse_gtfs_time
  by_cases hs : time_str = ""
  · simp [hs]
  · rw [if_neg hs]
    rw [Bool.or_eq_true] at h
    rcases h with hfalse | h
    · exact absurd (of_decide_eq_true hfalse) hs
    · rcases hsp : splitOnChar ':' time_str.toList with _ | ⟨p0, _ | ⟨p1, rest⟩⟩
      · rfl
      · rfl
      · rw [hsp] at h
        rcases h0 : pyIntChars p0 with _ | v0
        · simp [h0]
        · rcases h1 : pyIntChars p1 with _ | v1
          · simp [h0, h1]
          · rcases h2 : (match rest with | p2 :: _ => pyIntChars p2 | [] => some 0)
              with _ | v2
            · simp [h0, h1, h2]
            · simp [h0, h1, h2] at h
              simp only [h0, h1, h2]
              unfold mkTime
              rw [if_neg]
              generalize (if 24 ≤ v0 then v0 % 24 else v0) = hh
              omega

/-- C2 witness: the amended theorem applied to the out-of-range input
`"1:99:0"`. -/
theorem claim_C2_amended_witness : parse_gtfs_time "1:99:0" = none :=
  claim_C2_amended "1:99:0" (by decide)

/-- C3: hours at or above 24 wrap modulo 24 (`"25:15:00"` and
`"01:15:00"` both parse to 01:15:00), short components are accepted
(`"08:5:0"` parses to 08:05:00), and `""` and `"not-a-time"` parse to
no value. -/
theorem claim_C3_time_normalization :
    parse_gtfs_time "25:15:00" = some ⟨1, 15, 0⟩ ∧
      parse_gtfs_time "01:15:00" = some ⟨1, 15, 0⟩ ∧
      parse_gtfs_time "08:5:0" = some ⟨8, 5, 0⟩ ∧
      parse_gtfs_time "" = none ∧
      parse_gtfs_time "not-a-time" = none := by
  decide

/-- C4: on the end-to-end feed, `get_routes()` returns exactly one
route — origin `"A Route"`, destination `"Library"`, stops `[S1, S2]`,
duration 4 minutes (240 seconds) — and `get_schedules("R1", "S1")`
returns exactly one schedule whose serialized departure times are
`["08:00"]`. -/
theorem claim_C4_e2e :
    (get_osu_routes e2eParser initState).1 =
        [{ route_id := "R1", origin := "A Route", destination := "Library",
           stops := [stopS1, stopS2], duration := 240, cost := 0, transfers := 0 }] ∧
      ((get_osu_schedules e2eParser (get_osu_routes e2eParser initState).2 "R1"
            (some "S1")).1.map Schedule.to_dict) =
        [{ route := some "R1", stop := some "S1", departure_times := ["08:00"],
           arrival_times := [], frequency := none }] := by
  decide

/-- C5: when the cached stop and route collections are both already
non-empty, `load_osu_data` with `force_reload = False` is a no-op: the
state (all three collections) is returned unchanged and no rebuild
happens. -/
theorem claim_C5_idempotent_load (p : GTFSParser) (st : OsuState)
    (h1 : st.osu_stops ≠ []) (h2 : st.osu_routes ≠ []) :
    load_osu_data p st false = st := by
  unfold load_osu_data
  simp [h1, h2]

/-- C5 witness: a second non-forced load over an already-loaded
snapshot of the end-to-end feed returns it unchanged. -/
theorem claim_C5_witness :
    load_osu_data e2eParser ⟨[stopS1], [dedupRoute], []⟩ false =
      ⟨[stopS1], [dedupRoute], []⟩ :=
  claim_C5_idempotent_load e2eParser ⟨[stopS1], [dedupRoute], []⟩
    (by decide) (by decide)

/-- C10: the empty query short-circuits to the first ten stops of the
full stop set, before any substring matching. -/
theorem claim_C10_empty_query (p : GTFSParser) (st : OsuState) :
    (search_osu_stops p st "").1 = ((get_osu_stops p st).1).take 10 := by
  rfl

/-- C6 counterexample: the claim quantifies over every query string,
but for the empty query over an eleven-stop feed the search returns the
first ten stops, not the eleven stops that contain the empty string —
refuting the claim as stated. -/
theorem claim_C6_counterexample :
    (search_osu_stops emptyParser elevenStopState "").1 ≠
      (get_osu_stops emptyParser elevenStopState).1.filter (stopMatches "") := by
  decide

/-- C6 (amended): for every NON-EMPTY query string, the search returns
exactly the stops whose name, address, or stop id contains the query
case-insensitively, and when that match set is empty over a feed of at
least five stops it returns the first five stops of the full set —
never an empty list.  (The empty query instead short-circuits to the
first ten stops.) -/
theorem claim_C6_fallback_search (p : GTFSParser) (st : OsuState)
    (query : String) (hq : query ≠ "") :
    ((search_osu_stops p st query).1 =
        (if ((get_osu_stops p st).1.filter (stopMatches query)).isEmpty
         then (get_osu_stops p st).1.take 5
         else (get_osu_stops p st).1.filter (stopMatches query))) ∧
      (5 ≤ (get_osu_stops p st).1.length → (search_osu_stops p st query).1 ≠ []) := by
  have hres : (search_osu_stops p st query).1 =
      (if ((get_osu_stops p st).1.filter (stopMatches query)).isEmpty
       then (get_osu_stops p st).1.take 5
       else (get_osu_stops p st).1.filter (stopMatches query)) := by
    unfold search_osu_stops
    by_cases hE : ((get_osu_stops p st).1.filter (stopMatches query)).isEmpty <;>
      simp [hq, hE]
  refine ⟨hres, fun hlen => ?_⟩
  rw [hres]
  by_cases hE : ((get_osu_stops p st).1.filter (stopMatches query)).isEmpty
  · rw [if_pos hE]
    intro hc
    have hlt := List.length_take 5 (get_osu_stops p st).1
    rw [hc] at hlt
    simp at hlt
    omega
  · rw [if_neg hE]
    rw [List.isEmpty_iff] at hE
    exact hE

/-- C6 witness: the amended theorem applied to the query
`"zzzznotfound"` over the eleven-stop state. -/
theorem claim_C6_witness :
    ((search_osu_stops emptyParser elevenStopState "zzzznotfound").1 =
        (if ((get_osu_stops emptyParser elevenStopState).1.filter
              (stopMatches "zzzznotfound")).isEmpty
         then (get_osu_stops emptyParser elevenStopState).1.take 5
         else (get_osu_stops emptyParser elevenStopState).1.filter
              (stopMatches "zzzznotfound"))) ∧
      (5 ≤ (get_osu_stops emptyParser elevenStopState).1.length →
        (search_osu_stops emptyParser elevenStopState "zzzznotfound").1 ≠ []) :=
  claim_C6_fallback_search emptyParser elevenStopState "zzzznotfound" (by decide)

/-- C7: every schedule the derived-view builder produces has strictly
ascending, duplicate-free departure and arrival time sequences; and the
schedule built from departure strings `"08:00:00"`, `"08:00:00"`,
`"07:30:00"` serializes its departure times as `["07:30", "08:00"]`. -/
theorem claim_C7_schedule_times_sorted :
    (∀ (p : GTFSParser) (rid : String) (scheds : List Schedule) (s : Schedule),
        (rid, scheds) ∈ (buildOsuData p).osu_schedules → s ∈ scheds →
        s.departure_times.Pairwise timeLT ∧ s.arrival_times.Pairwise timeLT) ∧
      ((dictFind (buildOsuData dedupParser).osu_schedules "R").getD []).map
          (fun s => s.to_dict.departure_times) = [["07:30", "08:00"]] := by
  constructor
  · intro p rid scheds s hmem hs
    obtain ⟨r, hr⟩ := buildOsuData_schedules_spec hmem
    simp only at hr
    rw [hr] at hs
    exact (mem_buildRouteSchedules hs).2
  · decide

/-- C7 witness: the sortedness statement applied to the schedule built
for the dedup scenario. -/
theorem claim_C7_witness :
    dedupSched.departure_times.Pairwise timeLT ∧
      dedupSched.arrival_times.Pairwise timeLT :=
  claim_C7_schedule_times_sorted.1 dedupParser "R" [dedupSched] dedupSched
    (by decide) (by decide)

/-- C8: every route emitted by the builder has a non-empty stop list,
and a route record with zero associated trips (hence zero resolvable
stops) never appears in the built route view. -/
theorem claim_C8_route_exclusion (p : GTFSParser) (rid : String) (r : Route)
    (hr : r ∈ (buildOsuData p).osu_routes) :
    r.stops ≠ [] ∧
      ((p.trips.map Prod.snd).filter (fun t => t.route_id = rid) = [] →
        r.route_id ≠ rid) := by
  have hr' : r ∈ p.routes.filterMap (buildRoute p (osuStopDict p)) := hr
  rcases List.mem_filterMap.1 hr' with ⟨e, _he, hfe⟩
  obtain ⟨hid, hstops, hne⟩ := buildRoute_spec hfe
  refine ⟨hne, fun htrips hcon => hne ?_⟩
  rw [hstops]
  have he1 : e.1 = rid := by rw [← hid, hcon]
  rw [he1]
  unfold routeStopViews get_route_stops
  rw [htrips]
  rfl

/-- C8 witness: the exclusion statement applied to the referential
scenario's route and an id (`"RX"`) that owns no trips. -/
theorem claim_C8_witness :
    refRoute.stops ≠ [] ∧
      ((refParser.trips.map Prod.snd).filter (fun t => t.route_id = "RX") = [] →
        refRoute.route_id ≠ "RX") :=
  claim_C8_route_exclusion refParser "RX" refRoute (by decide)

/-- C9: every stop referenced by a built route or schedule exists in
the stops table (rows with unknown stop ids are silently excluded), and
on the referential scenario — one unknown stop id `SX` and one known
stop `S1` — the builder still produces the route and the `S1` schedule. -/
theorem claim_C9_referential_tolerance :
    (∀ (p : GTFSParser) (rid : String) (scheds : List Schedule) (s : Schedule),
        (rid, scheds) ∈ (buildOsuData p).osu_schedules → s ∈ scheds →
        ∃ stp, s.stop = some stp ∧ stp.stop_id ∈ p.stops.map Prod.fst) ∧
      (∀ (p : GTFSParser) (r : Route) (stp : Stop),
        r ∈ (buildOsuData p).osu_routes → stp ∈ r.stops →
        stp.stop_id ∈ p.stops.map Prod.fst) ∧
      (buildOsuData refParser).osu_routes = [refRoute] ∧
      (buildOsuData refParser).osu_schedules = [("R1", [refSched])] := by
  refine ⟨?_, ?_, by decide, by decide⟩
  · intro p rid scheds s hmem hs
    obtain ⟨r, hr⟩ := buildOsuData_schedules_spec hmem
    simp only at hr
    rw [hr] at hs
    obtain ⟨⟨k, stp, hfind, hstop⟩, _, _⟩ := mem_buildRouteSchedules hs
    obtain ⟨hmem2, _hkey⟩ := osuStopDict_spec (dictFind_mem hfind)
    exact ⟨stp, hstop, osuStops_stop_id_mem hmem2⟩
  · intro p r stp hr hstp
    have hr' : r ∈ p.routes.filterMap (buildRoute p (osuStopDict p)) := hr
    rcases List.mem_filterMap.1 hr' with ⟨e, _he, hfe⟩
    obtain ⟨_hid, hstops, _hne⟩ := buildRoute_spec hfe
    rw [hstops] at hstp
    unfold routeStopViews at hstp
    rcases List.mem_filterMap.1 hstp with ⟨info, _, hfind⟩
    obtain ⟨hmem2, _hkey⟩ := osuStopDict_spec (dictFind_mem hfind)
    exact osuStops_stop_id_mem hmem2

/-- C9 witness: the schedule statement applied to the referential
scenario. -/
theorem claim_C9_witness :
    ∃ stp, refSched.stop = some stp ∧
      stp.stop_id ∈ refParser.stops.map Prod.fst :=
  claim_C9_referential_tolerance.1 refParser "R1" [refSched] refSched
    (by decide) (by decide)

end Transit
